import Mathlib

/-!
Verification development for the `insales_sync` Odoo module.

The Python source (`src/insales_sync/models/`) is shallowly embedded below.
Conventions of the embedding:

* Python/Odoo floats and `Decimal` values are modelled as exact rationals (`ℚ`).
  `odoo.tools.float_utils.float_repr(v, d)` produces the decimal string of `v`
  rounded to `d` digits; it is modelled by the exact rational value of that
  string (`float_repr` below).  `float_is_zero(v, d)` tests
  `abs(float_round(v, d)) < 10 ** -d`, which for a value already rounded to a
  multiple of `10 ** -d` is exactly "the rounded value is zero".
* Python `int(...)` truncation toward zero is `pyInt`.
* Remote payloads (`in_variant`, `in_product`) are dictionaries; the keys the
  code reads become fields of `InVariant` / `InProduct`, with `Option` for
  values that can be absent / `None`.  The remaining top-level keys that a
  quantity mapping may address are kept as an association list `qty_fields`
  (first binding wins, like a dict).
* Exceptions become `Except`; the raised business errors are `SyncErr`, the
  insales client's `ApiError` is `ApiError`.  Side effects (log lines, API
  calls, record writes) become an explicit trace of `Effect`s.
-/

namespace Insales

/-- Exact rational addition, written on numerators and denominators so that it
evaluates inside the kernel (the library's `Rat.add` is irreducible). -/
def ratAdd (a b : ℚ) : ℚ := mkRat (a.num * b.den + b.num * a.den) (a.den * b.den)

/-- Exact rational subtraction, written on numerators and denominators so that
it evaluates inside the kernel. -/
def ratSub (a b : ℚ) : ℚ := mkRat (a.num * b.den - b.num * a.den) (a.den * b.den)

/-- Python `sum(...)` over a list of numbers. -/
def ratSum (l : List ℚ) : ℚ := l.foldl ratAdd 0

/-- Python `int(...)` applied to a number: truncation toward zero
(`num.fdiv den` is the floor since the denominator is positive). -/
def pyInt (q : ℚ) : ℤ :=
  if 0 ≤ q.num then q.num.fdiv q.den else -((-q.num).fdiv q.den)

/-- `⌊q * 10 ^ d⌉` rounded to the nearest integer with ties away from zero
(Odoo `float_round`'s HALF-UP method), computed on the numerator and
denominator: for `q ≥ 0` this is `⌊(q * 10 ^ d) + 1 / 2⌋ =
(2 * num * 10 ^ d + den) fdiv (2 * den)`, and symmetrically for `q < 0`. -/
def round_at_num (q : ℚ) (d : ℕ) : ℤ :=
  let n := q.num * 10 ^ d
  let den : ℤ := q.den
  if 0 ≤ n then (2 * n + den).fdiv (2 * den) else -((-(2 * n) + den).fdiv (2 * den))

/-- Value of the decimal string produced by Odoo
`float_repr(value, precision_digits=d)`: the input rounded to `d` decimal
digits, ties away from zero. -/
def float_repr (q : ℚ) (d : ℕ) : ℚ := mkRat (round_at_num q d) (10 ^ d)

/-- Odoo `float_is_zero(value, precision_digits=d)`:
`abs(float_round(value, d)) < 10 ** -d`, i.e. the value rounded at `d` digits
is zero. -/
def float_is_zero (q : ℚ) (d : ℕ) : Bool := float_repr q d == 0

/-- `self.env["decimal.precision"].precision_get(...) or 16`: an unresolved
precision (modelled as `0`) falls back to 16 digits. -/
def precision_or_16 (d : ℕ) : ℕ := if d = 0 then 16 else d

/-- The two `decimal.precision` records the module reads
(`"Stock Weight"` and `"Product Price"`); `0` models an unresolved record. -/
structure Env where
  stock_weight_digits : ℕ
  product_price_digits : ℕ

/-- One record of `insales_sync.config.quantity` (config.py):
a stock location mapped to a remote field, either a fixed top-level key or an
"additional field" addressed by its resolved numeric id. -/
structure QuantityField where
  location : ℤ
  is_additional : Bool
  insales_field : String
  insales_field_id : ℤ
deriving DecidableEq

/-- A pricelist's `get_product_price(product, 1, None)`, as a function of the
product id (the pricing collaborator of §6 of the spec). -/
abbrev Pricelist := ℤ → ℚ

/-- One record of `insales_sync.config` (config.py), restricted to the fields
the sync engine reads. -/
structure Config where
  id : ℤ
  active : Bool
  prod_environment : Bool
  pricelist_id : Option Pricelist
  old_pricelist_id : Option Pricelist
  quantity_fields : List QuantityField
  sync_weight : Bool
  sync_weight_skip_zero : Bool

/-- One `product.product` record with the fields the engine reads.
`insales_sync_config_id` is the linked configuration (dereferenced). -/
structure ProductProduct where
  id : ℤ
  default_code : Option String
  weight : ℚ
  insales_sync_config_id : Config
  insales_sync_skip_price : Bool
  insales_sync_skip_qty : Bool
  insales_sync_skip_weight : Bool

/-- One `stock.quant` record (the fields `insales_sync_get_quantity` reads). -/
structure StockQuant where
  product_id : ℤ
  location_id : ℤ
  quantity : ℚ
  reserved_quantity : ℚ
deriving DecidableEq

/-- `ProductProduct.insales_sync_get_quantity(location)` from
product-checkpoint.py: the integer truncation of on-hand minus reserved over
the product's quants at the location. -/
def insales_sync_get_quantity (sq : List StockQuant) (p : ProductProduct)
    (location : ℤ) : ℤ :=
  let quant := sq.filter (fun q => q.product_id == p.id && q.location_id == location)
  let reserved := ratSum (quant.map (fun line => line.reserved_quantity))
  let on_hand := ratSum (quant.map (fun line => line.quantity))
  pyInt (ratSub on_hand reserved)

/-- One entry of a remote variant's `variant-field-values` list. -/
structure InFieldValue where
  variant_field_id : Option ℤ
  value : Option ℤ
deriving DecidableEq

/-- A remote InSales variant payload, restricted to the keys the code reads.
`qty_fields` holds the other top-level keys (presence in the list models
presence of the dictionary key; the value is `none` for a falsy payload value,
which `int(... or 0)` coerces to 0). -/
structure InVariant where
  id : Option ℤ
  product_id : Option ℤ
  sku : Option String
  weight : Option ℚ
  price : Option ℚ
  old_price : Option ℚ
  variant_field_values : List InFieldValue
  qty_fields : List (String × Option ℤ)
deriving DecidableEq

/-- A remote InSales product payload. -/
structure InProduct where
  id : Option ℤ
  permalink : Option String
  variants : List InVariant
deriving DecidableEq

/-- The possible values carried by a `VariantModifier` (Python `any`):
`null` is `None`, `dec` a formatted decimal string (by its value), `int` an
integer quantity, `fieldAttr` the `{"handle": ..., "value": ...}` dict built
for additional fields. -/
inductive ModValue
  | null
  | dec (q : ℚ)
  | int (n : ℤ)
  | fieldAttr (handle : String) (value : ℤ)
deriving DecidableEq

/-- The `VariantModifier` NamedTuple of sync_product.py. -/
structure VariantModifier where
  field_name : String
  value : ModValue
  diff_name : String
  diff_old_value : ModValue
  diff_new_value : ModValue
  is_list : Bool
deriving DecidableEq

/-- `str(x) if x else None` applied to an optional Decimal: Python truthiness
makes a zero Decimal render as `None` in the diff. -/
def truthyDec : Option ℚ → ModValue
  | some q => if q == 0 then ModValue.null else ModValue.dec q
  | none => ModValue.null

/-- `InsalesSyncProduct.get_quantity_from_insales_variant` (sync_product.py
lines 40-51).  The `.error` case models raising `UnknownInSalesVariantField`
(carrying the field name); `field.insales_field not in in_variant.keys()`
followed by `in_variant.get(...)` is the single association-list lookup. -/
def get_quantity_from_insales_variant (in_variant : InVariant)
    (field : QuantityField) : Except String ℤ :=
  if field.is_additional then
    match in_variant.variant_field_values.find?
        (fun in_field => some field.insales_field_id == in_field.variant_field_id) with
    | some in_field => Except.ok (in_field.value.getD 0)
    | none => Except.ok 0
  else
    match in_variant.qty_fields.lookup field.insales_field with
    | none => Except.error field.insales_field
    | some v => Except.ok (v.getD 0)

/-- The `VariantModifier` appended for one quantity field mismatch
(sync_product.py lines 73-90). -/
def qty_modifier (field : QuantityField) (in_qty odoo_qty : ℤ) : VariantModifier :=
  { field_name :=
      if field.is_additional then "variant-field-values-attributes"
      else field.insales_field
    value :=
      if field.is_additional then ModValue.fieldAttr field.insales_field odoo_qty
      else ModValue.int odoo_qty
    is_list := field.is_additional
    diff_name := field.insales_field
    diff_old_value := ModValue.int in_qty
    diff_new_value := ModValue.int odoo_qty }

/-- The `for field in cfg.quantity_fields` loop of
`_get_insales_variant_qty_modifiers` (sync_product.py lines 61-90).
First component: the accumulated modifiers; second component: the fields whose
`UnknownInSalesVariantField` was caught and `log.error`'d (the loop then
`continue`s). -/
def qty_mods_loop (sq : List StockQuant) (p : ProductProduct) (inv : InVariant) :
    List QuantityField → List VariantModifier × List String
  | [] => ([], [])
  | field :: rest =>
    match get_quantity_from_insales_variant inv field with
    | Except.error e =>
        let r := qty_mods_loop sq p inv rest
        (r.1, e :: r.2)
    | Except.ok n =>
        let in_qty := max n 0
        let odoo_qty := insales_sync_get_quantity sq p field.location
        let r := qty_mods_loop sq p inv rest
        if in_qty == odoo_qty then r
        else (qty_modifier field in_qty odoo_qty :: r.1, r.2)

/-- `InsalesSyncProduct._get_insales_variant_qty_modifiers`
(sync_product.py lines 53-92), returning the modifiers together with the
logged unknown-field names. -/
def _get_insales_variant_qty_modifiers (sq : List StockQuant)
    (p : ProductProduct) (inv : InVariant) : List VariantModifier × List String :=
  if p.insales_sync_skip_qty then ([], [])
  else qty_mods_loop sq p inv p.insales_sync_config_id.quantity_fields

/-- `InsalesSyncProduct._get_insales_variant_weight_modifiers`
(sync_product.py lines 94-121). -/
def _get_insales_variant_weight_modifiers (env : Env) (p : ProductProduct)
    (in_weight : Option ℚ) : List VariantModifier :=
  let cfg := p.insales_sync_config_id
  if !cfg.sync_weight || p.insales_sync_skip_weight then []
  else
    let digits := precision_or_16 env.stock_weight_digits
    let weight_str := float_repr (max p.weight 0) digits
    if in_weight == some weight_str then []
    else
      let weight_is_zero := float_is_zero p.weight digits
      if cfg.sync_weight_skip_zero && weight_is_zero then []
      else
        let new_value := if !weight_is_zero then ModValue.dec weight_str else ModValue.null
        [{ field_name := "weight"
           value := new_value
           is_list := false
           diff_name := "weight"
           diff_old_value := truthyDec in_weight
           diff_new_value := new_value }]

/-- `InsalesSyncProduct._get_insales_variant_price_modifiers`
(sync_product.py lines 123-161).  `old_price_str = None` when
`old_price <= price` is the `none` case of `old_price_str`. -/
def _get_insales_variant_price_modifiers (env : Env) (p : ProductProduct)
    (in_price in_old_price : Option ℚ) : List VariantModifier :=
  let cfg := p.insales_sync_config_id
  match cfg.pricelist_id with
  | none => []
  | some pricelist =>
    if p.insales_sync_skip_price then []
    else
      let digits := precision_or_16 env.product_price_digits
      let price := max (pricelist p.id) 0
      let price_str := float_repr price digits
      let mods :=
        if in_price != some price_str then
          [{ field_name := "price"
             value := ModValue.dec price_str
             is_list := false
             diff_name := "price"
             diff_old_value := truthyDec in_price
             diff_new_value := ModValue.dec price_str }]
        else []
      match cfg.old_pricelist_id with
      | none => mods
      | some old_pricelist =>
        let old_price := old_pricelist p.id
        let old_price_str : Option ℚ :=
          if old_price ≤ price then none else some (float_repr old_price digits)
        let old_value := match old_price_str with
          | some q => ModValue.dec q
          | none => ModValue.null
        if (old_price_str.isSome && in_old_price != old_price_str)
            || (!old_price_str.isSome && in_old_price.isSome) then
          mods ++
            [{ field_name := "old-price"
               value := old_value
               is_list := false
               diff_name := "old_price"
               diff_old_value := truthyDec in_old_price
               diff_new_value := old_value }]
        else mods

/-- The combined modifier computation of `process_insales_variant`
(sync_product.py lines 169-177): weight, then price, then quantity modifiers;
the second component carries the unknown-field names logged by the quantity
generator. -/
def variant_modifiers (env : Env) (sq : List StockQuant) (p : ProductProduct)
    (inv : InVariant) : List VariantModifier × List String :=
  let q := _get_insales_variant_qty_modifiers sq p inv
  (_get_insales_variant_weight_modifiers env p inv.weight
      ++ _get_insales_variant_price_modifiers env p inv.price inv.old_price
      ++ q.1,
    q.2)

/-- A value in the outgoing update payload: either a scalar set by a
non-list modifier or the accumulated list of an additional-field key. -/
inductive UpdateValue
  | scalar (v : ModValue)
  | group (vs : List ModValue)
deriving DecidableEq

/-- `data.get(key, [])` restricted to list values (`data[k] + [v]` is only
well-typed in the source when the existing value is a list; a scalar reuse of
a list key would be a `TypeError` and never happens for the keys the
generators emit). -/
def dataGetGroup (data : List (String × UpdateValue)) (k : String) : List ModValue :=
  match data.lookup k with
  | some (UpdateValue.group vs) => vs
  | _ => []

/-- `data[k] = v` on the association list modelling the payload dict. -/
def dataSet (data : List (String × UpdateValue)) (k : String) (v : UpdateValue) :
    List (String × UpdateValue) :=
  if data.any (fun kv => kv.1 == k) then
    data.map (fun kv => if kv.1 == k then (k, v) else kv)
  else data ++ [(k, v)]

/-- The payload-building loop of `process_insales_variant`
(sync_product.py lines 193-199): scalar modifiers overwrite their key,
list modifiers append to the list under their key. -/
def build_update_data (mods : List VariantModifier) : List (String × UpdateValue) :=
  mods.foldl
    (fun data m =>
      dataSet data m.field_name
        (if m.is_list then UpdateValue.group (dataGetGroup data m.field_name ++ [m.value])
         else UpdateValue.scalar m.value))
    []

/-- The business errors of exc.py that the product loop raises and catches. -/
inductive SyncErr
  | multipleProduct (sku : String)
  | productInsalesNotFound (sku : String)
  | variantSkuNotFound (product_id variant_id : Option ℤ)
  | unknownVariantField (field : String)
deriving DecidableEq

/-- `insales.connection.ApiError`. -/
inductive ApiError
  | mk
deriving DecidableEq

/-- Observable side effects of a sync run, in order of occurrence. -/
inductive Effect
  | logDiff (default_code : Option String) (mods : List VariantModifier)
  | apiUpdate (product_id variant_id : Option ℤ) (data : List (String × UpdateValue))
  | writeVariantLink (variant_id : Option ℤ) (timestamp : ℕ)
  | writeTemplateLink (config_id : ℤ) (product_id : Option ℤ) (permalink : Option String)
  | logError (err : SyncErr)
  | updateCategoriesRun (config_id : ℤ)
deriving DecidableEq

/-- The InSales API client of one configuration (`cfg.get_api_client()`),
restricted to what the engine calls: `update_product_variant` (which may raise
`ApiError`) and the product stream that `get_iter_all_products` yields for the
configuration's sync-flagged categories. -/
structure ApiClient where
  products : List InProduct
  update_product_variant :
    Option ℤ → Option ℤ → List (String × UpdateValue) → Except ApiError Unit

/-- `InsalesSyncProduct.process_insales_variant` (sync_product.py lines
163-210).  `now` is `fields.Datetime.now()`.  Returns the effect trace, or the
uncaught `ApiError` of `update_product_variant`; the final local write-back
only happens when no exception was raised before it. -/
def process_insales_variant (env : Env) (sq : List StockQuant) (now : ℕ)
    (client : ApiClient) (p : ProductProduct) (inv : InVariant) :
    Except ApiError (List Effect) := do
  let cfg := p.insales_sync_config_id
  let mp := variant_modifiers env sq p inv
  let errEffects := mp.2.map (fun f => Effect.logError (SyncErr.unknownVariantField f))
  let mid ←
    if mp.1.isEmpty then pure []
    else
      let logE := Effect.logDiff p.default_code mp.1
      if cfg.prod_environment then do
        let _ ← client.update_product_variant inv.product_id inv.id (build_update_data mp.1)
        pure [logE, Effect.apiUpdate inv.product_id inv.id (build_update_data mp.1)]
      else pure [logE]
  pure (errEffects ++ mid ++ [Effect.writeVariantLink inv.id now])

/-- The body of the `for in_variant in in_product.get("variants", [])` loop of
`process_insales_product` (sync_product.py lines 231-268), including its
`try`/`except`: the three matching errors are turned into a `logError`
effect and swallowed (`continue`), while `ApiError` passes through.
On a unique match, the parent template's link fields are written first and the
variant is processed with the (now) linked configuration `cfg`. -/
def process_insales_product_step (env : Env) (sq : List StockQuant)
    (db : List ProductProduct) (now : ℕ) (client : ApiClient) (cfg : Config)
    (inp : InProduct) (inv : InVariant) : Except ApiError (List Effect) :=
  match inv.sku with
  | none => Except.ok [Effect.logError (SyncErr.variantSkuNotFound inv.product_id inv.id)]
  | some sku =>
    match db.filter (fun p => p.default_code == some sku) with
    | [] => Except.ok [Effect.logError (SyncErr.productInsalesNotFound sku)]
    | [p] => do
        let tr ← process_insales_variant env sq now client
          { p with insales_sync_config_id := cfg } inv
        pure (Effect.writeTemplateLink cfg.id inp.id inp.permalink :: tr)
    | _ :: _ :: _ => Except.ok [Effect.logError (SyncErr.multipleProduct sku)]

/-- The variant loop of `process_insales_product`: sequential processing,
concatenating traces; an uncaught `ApiError` aborts the remaining variants. -/
def process_insales_variants (env : Env) (sq : List StockQuant)
    (db : List ProductProduct) (now : ℕ) (client : ApiClient) (cfg : Config)
    (inp : InProduct) : List InVariant → Except ApiError (List Effect)
  | [] => Except.ok []
  | v :: vs => do
      let t ← process_insales_product_step env sq db now client cfg inp v
      let ts ← process_insales_variants env sq db now client cfg inp vs
      pure (t ++ ts)

/-- `InsalesSyncProduct.process_insales_product` (sync_product.py lines
226-268). -/
def process_insales_product (env : Env) (sq : List StockQuant)
    (db : List ProductProduct) (now : ℕ) (client : ApiClient) (cfg : Config)
    (inp : InProduct) : Except ApiError (List Effect) :=
  process_insales_variants env sq db now client cfg inp inp.variants

/-- The product loop of `sync_configuration`. -/
def process_insales_products (env : Env) (sq : List StockQuant)
    (db : List ProductProduct) (now : ℕ) (client : ApiClient) (cfg : Config) :
    List InProduct → Except ApiError (List Effect)
  | [] => Except.ok []
  | ip :: ips => do
      let t ← process_insales_product env sq db now client cfg ip
      let ts ← process_insales_products env sq db now client cfg ips
      pure (t ++ ts)

/-- `InsalesSyncProduct.sync_configuration` (sync_product.py lines 297-307):
no-op when inactive; otherwise refresh the category mirror (kept as a single
trace effect here; its internals are modelled separately below) and process
every product of the configuration's stream. -/
def sync_configuration (env : Env) (sq : List StockQuant)
    (db : List ProductProduct) (now : ℕ) (client : ApiClient) (cfg : Config) :
    Except ApiError (List Effect) :=
  if !cfg.active then Except.ok []
  else
    (process_insales_products env sq db now client cfg client.products).map
      (fun ts => Effect.updateCategoriesRun cfg.id :: ts)

/-- The configuration loop of `cron_do`. -/
def cron_loop (env : Env) (sq : List StockQuant) (db : List ProductProduct)
    (now : ℕ) (apiFor : Config → ApiClient) :
    List Config → Except ApiError (List Effect)
  | [] => Except.ok []
  | cfg :: rest => do
      let t ← sync_configuration env sq db now (apiFor cfg) cfg
      let ts ← cron_loop env sq db now apiFor rest
      pure (t ++ ts)

/-- `InsalesSyncProduct.cron_do` (sync_product.py lines 310-313): iterate the
active configurations (`search([["active", "=", True]])`), each with its own
API client. -/
def cron_do (env : Env) (sq : List StockQuant) (db : List ProductProduct)
    (now : ℕ) (apiFor : Config → ApiClient) (cfgs : List Config) :
    Except ApiError (List Effect) :=
  cron_loop env sq db now apiFor (cfgs.filter (fun c => c.active))

/-!  The category mirror (`insales_sync.config.category`, config.py lines
148-193).  A state is the list of all category records (`search` in
`get_children` is model-wide, exactly like the source's unqualified
`self.search`). -/

/-- One `insales_sync.config.category` record. -/
structure Category where
  id : ℤ
  insales_id : ℤ
  title : String
  parent_path : String
  sync : Bool
deriving DecidableEq

/-- Python `"...".split("/")` on a string given as its character list
(structural recursion, so it evaluates inside the kernel, unlike
`String.splitOn`).  `split` of the empty string is `[""]`, like Python's. -/
def splitSlash : List Char → List (List Char)
  | [] => [[]]
  | c :: cs =>
    if c == '/' then [] :: splitSlash cs
    else
      match splitSlash cs with
      | [] => [[c]]
      | t :: ts => (c :: t) :: ts

/-- Does `s` start with `pat`?  (`str.startswith(pat)` / SQL `pat + "%"`
matching, on character lists.) -/
def charsStartWith : List Char → List Char → Bool
  | _, [] => true
  | [], _ :: _ => false
  | c :: cs, p :: ps => c == p && charsStartWith cs ps

/-- `InSalesSyncConfigCategory.get_self_path` (config.py lines 168-174):
`"/".join([x for x in self.parent_path.split("/") if x] + [str(self.insales_id)])`,
the cleaned parent path with the node's own remote id appended (as the string's
character list). -/
def Category.get_self_path (c : Category) : List Char :=
  List.intercalate ['/']
    (((splitSlash c.parent_path.toList).filter (fun s => !s.isEmpty))
      ++ [(toString c.insales_id).toList])

/-- Membership in `get_children` (config.py lines 176-180): the records whose
materialized parent path is matched by the LIKE pattern `self_path + "%"`,
i.e. starts with the node's own path. -/
def Category.is_descendant (d r : Category) : Bool :=
  charsStartWith d.parent_path.toList r.get_self_path

/-- The writable values a category `write` may carry (the claims only need
`sync` and `title`; a `none` field is absent from the values dict). -/
structure CatVals where
  sync : Option Bool
  title : Option String
deriving DecidableEq

/-- Apply a values dict to one record (the `super().write(values)` effect). -/
def cat_apply_vals (vals : CatVals) (c : Category) : Category :=
  { c with sync := vals.sync.getD c.sync, title := vals.title.getD c.title }

/-- `models.Model.write` on the record with id `i`. -/
def cat_base_write (st : List Category) (i : ℤ) (vals : CatVals) : List Category :=
  st.map (fun c => if c.id == i then cat_apply_vals vals c else c)

/-- The effect of `get_children().write({"sync": True})` on one record:
set the sync flag when the record is a `get_children` match of `r`. -/
def set_sync_descendants (r d : Category) : Category :=
  if Category.is_descendant d r then { d with sync := true } else d

/-- `InSalesSyncConfigCategory.propagate_sync_to_children` (config.py lines
182-187) for the record with id `i`: if its sync flag is set, set `sync` on
every record `get_children` matches.  The source's inner
`get_children().write({"sync": True})` re-enters the overridden `write` and
recurses; that recursion only re-assigns `sync = True` to records this single
pass already covers, because a `get_children` match of a match is itself a
match: `get_self_path` of a child `c` of `r` starts with `r.get_self_path`
(cleaning `c.parent_path` of empty segments cannot disturb its prefix
`r.get_self_path`, which contains none), so descendants of `c` are descendants
of `r`.  The net effect is this one pass. -/
def propagate_sync_to_children (st : List Category) (i : ℤ) : List Category :=
  match st.find? (fun c => c.id == i) with
  | none => st
  | some r => if r.sync then st.map (set_sync_descendants r) else st

/-- `InSalesSyncConfigCategory.write` (config.py lines 189-193):
the base write followed unconditionally by the propagation. -/
def category_write (st : List Category) (i : ℤ) (vals : CatVals) : List Category :=
  propagate_sync_to_children (cat_base_write st i vals) i

/-! ### Helper predicates and normal forms for the reconciler trace -/

/-- Is this effect a remote `update_product_variant` call? -/
def Effect.isApiUpdate : Effect → Bool
  | Effect.apiUpdate _ _ _ => true
  | _ => false

/-- Is this effect a write to the local variant record? -/
def Effect.isVariantWrite : Effect → Bool
  | Effect.writeVariantLink _ _ => true
  | _ => false

/-- The `log.error` effects emitted for the unknown quantity fields. -/
def unknownFieldLogs (l : List String) : List Effect :=
  l.map (fun f => Effect.logError (SyncErr.unknownVariantField f))

/-- Normal form of `process_insales_variant`: the four possible outcomes,
split on whether any modifier exists, the environment flag, and the API
call result. -/
theorem process_insales_variant_eq (env : Env) (sq : List StockQuant) (now : ℕ)
    (client : ApiClient) (p : ProductProduct) (inv : InVariant) :
    process_insales_variant env sq now client p inv =
      (if (variant_modifiers env sq p inv).1.isEmpty then
         Except.ok (unknownFieldLogs (variant_modifiers env sq p inv).2
           ++ [Effect.writeVariantLink inv.id now])
       else if p.insales_sync_config_id.prod_environment then
         match client.update_product_variant inv.product_id inv.id
             (build_update_data (variant_modifiers env sq p inv).1) with
         | Except.ok _ =>
             Except.ok (unknownFieldLogs (variant_modifiers env sq p inv).2
               ++ [Effect.logDiff p.default_code (variant_modifiers env sq p inv).1,
                   Effect.apiUpdate inv.product_id inv.id
                     (build_update_data (variant_modifiers env sq p inv).1),
                   Effect.writeVariantLink inv.id now])
         | Except.error e => Except.error e
       else
         Except.ok (unknownFieldLogs (variant_modifiers env sq p inv).2
           ++ [Effect.logDiff p.default_code (variant_modifiers env sq p inv).1,
               Effect.writeVariantLink inv.id now])) := by
  unfold process_insales_variant unknownFieldLogs
  cases hm : (variant_modifiers env sq p inv).1.isEmpty <;>
    cases hp : p.insales_sync_config_id.prod_environment <;>
      simp only [hm, hp, Bool.false_eq_true, ite_false, ite_true,
        bind, Except.bind, pure, Except.pure, List.append_nil]
  all_goals first
    | rfl
    | (cases client.update_product_variant inv.product_id inv.id
          (build_update_data (variant_modifiers env sq p inv).1) <;>
        simp [List.append_assoc])

/-- No effect produced by the unknown-field logs is an API update or a
variant write. -/
theorem unknownFieldLogs_no_update (l : List String) :
    (∀ e ∈ unknownFieldLogs l, e.isApiUpdate = false ∧ e.isVariantWrite = false) := by
  intro e he
  simp only [unknownFieldLogs, List.mem_map] at he
  obtain ⟨f, _, rfl⟩ := he
  exact ⟨rfl, rfl⟩

/-- `getLast?` of a trace ending in its write-back effect. -/
theorem trace_last (A B : List Effect) (w : Effect) :
    (A ++ (B ++ [w])).getLast? = some w := by
  rw [← List.append_assoc]
  exact List.getLast?_concat _

/-- C1: with the production-environment flag false, `process_insales_variant`
completes normally, its trace contains no `update_product_variant` call
however many modifiers were produced, and a non-empty diff is logged. -/
theorem c1_test_env_never_calls_update (env : Env) (sq : List StockQuant)
    (now : ℕ) (client : ApiClient) (p : ProductProduct) (inv : InVariant)
    (h : p.insales_sync_config_id.prod_environment = false) :
    ∃ tr, process_insales_variant env sq now client p inv = Except.ok tr ∧
      (∀ e ∈ tr, e.isApiUpdate = false) ∧
      ((variant_modifiers env sq p inv).1 ≠ [] →
        Effect.logDiff p.default_code (variant_modifiers env sq p inv).1 ∈ tr) := by
  rw [process_insales_variant_eq]
  cases hm : (variant_modifiers env sq p inv).1.isEmpty with
  | true =>
    simp only [hm, ite_true]
    refine ⟨_, rfl, ?_, ?_⟩
    · intro e he
      rcases List.mem_append.mp he with h1 | h2
      · exact (unknownFieldLogs_no_update _ e h1).1
      · simp only [List.mem_singleton] at h2
        subst h2; rfl
    · intro hne
      exact absurd (List.isEmpty_iff.mp hm) hne
  | false =>
    simp only [hm, h, Bool.false_eq_true, ite_false]
    refine ⟨_, rfl, ?_, ?_⟩
    · intro e he
      rcases List.mem_append.mp he with h1 | h2
      · exact (unknownFieldLogs_no_update _ e h1).1
      · simp only [List.mem_cons, List.mem_singleton, List.not_mem_nil, or_false] at h2
        rcases h2 with rfl | rfl <;> rfl
    · intro _
      exact List.mem_append.mpr (Or.inr (by simp))

/-- C4: whenever `process_insales_variant` completes normally, its trace
writes the local variant record exactly once — the remote variant id and the
`now` timestamp — and that write is the final action. -/
theorem c4_writeback_always (env : Env) (sq : List StockQuant) (now : ℕ)
    (client : ApiClient) (p : ProductProduct) (inv : InVariant)
    (tr : List Effect)
    (h : process_insales_variant env sq now client p inv = Except.ok tr) :
    tr.filter Effect.isVariantWrite = [Effect.writeVariantLink inv.id now] ∧
    tr.getLast? = some (Effect.writeVariantLink inv.id now) := by
  rw [process_insales_variant_eq] at h
  have hfilter : ∀ l : List String,
      (unknownFieldLogs l).filter Effect.isVariantWrite = [] := by
    intro l
    rw [List.filter_eq_nil_iff]
    intro e he
    rw [(unknownFieldLogs_no_update l e he).2]
    exact Bool.false_ne_true
  split at h
  · cases h
    refine ⟨by simp [List.filter_append, hfilter, Effect.isVariantWrite], ?_⟩
    exact trace_last _ [] _
  · split at h
    · split at h
      · cases h
        refine ⟨by simp [List.filter_append, hfilter, List.filter,
          Effect.isVariantWrite], ?_⟩
        exact trace_last _ [Effect.logDiff p.default_code (variant_modifiers env sq p inv).1,
          Effect.apiUpdate inv.product_id inv.id
            (build_update_data (variant_modifiers env sq p inv).1)] _
      · cases h
    · cases h
      refine ⟨by simp [List.filter_append, hfilter, List.filter,
        Effect.isVariantWrite], ?_⟩
      exact trace_last _ [Effect.logDiff p.default_code (variant_modifiers env sq p inv).1] _

/-- The effective old-price value the generator computes (the `old_price_str`
local of sync_product.py lines 144-147, as the parsed value of the formatted
string): `None` when the computed old price is ≤ the computed price. -/
def effective_old_price (digits : ℕ) (price old_price : ℚ) : Option ℚ :=
  if old_price ≤ price then none else some (float_repr old_price digits)

theorem price_tag_ne_old : ("price" : String) ≠ "old-price" := by decide

/-- The generator's emission test for the old-price modifier
(`(old_price_str and in_old != ...) or (not old_price_str and in_old != None)`)
holds exactly when the remote old-price differs from the effective value. -/
theorem emit_cond_iff (in_old eff : Option ℚ) :
    ((eff.isSome && in_old != eff) || (!eff.isSome && in_old.isSome)) = true ↔
      in_old ≠ eff := by
  cases eff <;> cases in_old <;> simp [bne_iff_ne]

/-- An `old-price` modifier is in `if c then M ++ extra else M` exactly when
`c` holds, provided `M` has none and `extra` consists of them. -/
theorem mem_oldprice_iff (M extra : List VariantModifier) (c : Bool)
    (hM : ∀ m ∈ M, m.field_name ≠ "old-price")
    (ho : ∀ m ∈ extra, m.field_name = "old-price") (hoe : extra ≠ []) :
    ((∃ m ∈ (if c then M ++ extra else M), m.field_name = "old-price") ↔
      c = true) := by
  cases c <;> simp only [ite_true, ite_false, Bool.false_eq_true]
  · constructor
    · rintro ⟨m, hm, hf⟩
      exact absurd hf (hM m hm)
    · intro h
      cases h
  · constructor
    · intro _
      trivial
    · intro _
      obtain ⟨m, hm⟩ := List.exists_mem_of_ne_nil extra hoe
      exact ⟨m, List.mem_append.mpr (Or.inr hm), ho m hm⟩

/-- Every `old-price` modifier in `if c then M ++ extra else M` carries value
`v`, provided `M` has no `old-price` modifier and `extra`'s members all have
value `v`. -/
theorem val_oldprice (M extra : List VariantModifier) (c : Bool)
    (hM : ∀ m ∈ M, m.field_name ≠ "old-price") (v : ModValue)
    (hv : ∀ m ∈ extra, m.value = v) :
    ∀ m ∈ (if c then M ++ extra else M), m.field_name = "old-price" →
      m.value = v := by
  intro m hm hf
  cases c <;> simp only [ite_true, ite_false, Bool.false_eq_true] at hm
  · exact absurd hf (hM m hm)
  · rcases List.mem_append.mp hm with h1 | h2
    · exact absurd hf (hM m h1)
    · exact hv m h2

/-- C2: with an active pricelist and an old-price pricelist configured and the
price skip-flag unset: when the computed old price is ≤ the computed price the
effective old-price is null; an `old-price` modifier is emitted exactly when
the remote old-price differs from the effective value (transitions to and from
null included, and no modifier when both are null); an emitted modifier
carries the effective value. -/
theorem c2_old_price_null_rule (env : Env) (p : ProductProduct)
    (pl opl : Pricelist) (in_price in_old_price : Option ℚ)
    (h1 : p.insales_sync_config_id.pricelist_id = some pl)
    (h2 : p.insales_sync_config_id.old_pricelist_id = some opl)
    (h3 : p.insales_sync_skip_price = false) :
    (opl p.id ≤ max (pl p.id) 0 →
      effective_old_price (precision_or_16 env.product_price_digits)
        (max (pl p.id) 0) (opl p.id) = none) ∧
    ((∃ m ∈ _get_insales_variant_price_modifiers env p in_price in_old_price,
        m.field_name = "old-price") ↔
      in_old_price ≠ effective_old_price (precision_or_16 env.product_price_digits)
        (max (pl p.id) 0) (opl p.id)) ∧
    (∀ m ∈ _get_insales_variant_price_modifiers env p in_price in_old_price,
      m.field_name = "old-price" →
        m.value = (match effective_old_price (precision_or_16 env.product_price_digits)
            (max (pl p.id) 0) (opl p.id) with
          | some q => ModValue.dec q
          | none => ModValue.null)) := by
  have hmods : _get_insales_variant_price_modifiers env p in_price in_old_price =
      (let digits := precision_or_16 env.product_price_digits
       let price := max (pl p.id) 0
       let price_str := float_repr price digits
       let mods :=
         if in_price != some price_str then
           [{ field_name := "price"
              value := ModValue.dec price_str
              is_list := false
              diff_name := "price"
              diff_old_value := truthyDec in_price
              diff_new_value := ModValue.dec price_str }]
         else []
       let old_price_str := effective_old_price digits price (opl p.id)
       let old_value := match old_price_str with
         | some q => ModValue.dec q
         | none => ModValue.null
       if (old_price_str.isSome && in_old_price != old_price_str)
           || (!old_price_str.isSome && in_old_price.isSome) then
         mods ++
           [{ field_name := "old-price"
              value := old_value
              is_list := false
              diff_name := "old_price"
              diff_old_value := truthyDec in_old_price
              diff_new_value := old_value }]
       else mods
      ) := by
    simp only [_get_insales_variant_price_modifiers, h1, h2, h3,
      Bool.false_eq_true, ite_false, effective_old_price]
  refine ⟨fun hle => by simp [effective_old_price, hle], ?_, ?_⟩
  · rw [hmods]
    simp only []
    refine (mem_oldprice_iff _ _ _ ?_ ?_ ?_).trans (emit_cond_iff _ _)
    · intro m hm
      split at hm
      · simp only [List.mem_singleton] at hm
        rw [hm]
        exact price_tag_ne_old
      · cases hm
    · intro m hm
      simp only [List.mem_singleton] at hm
      rw [hm]
    · simp
  · rw [hmods]
    simp only []
    refine val_oldprice _ _ _ ?_ _ ?_
    · intro m hm
      split at hm
      · simp only [List.mem_singleton] at hm
        rw [hm]
        exact price_tag_ne_old
      · cases hm
    · intro m hm
      simp only [List.mem_singleton] at hm
      rw [hm]

/-! ### Sample records used by counterexamples and witnesses -/

/-- A configuration with weight sync on, skip-zero-weight on, test
environment, no pricelists and no quantity mappings. -/
def sample_cfg_weight : Config :=
  { id := 1, active := true, prod_environment := false, pricelist_id := none,
    old_pricelist_id := none, quantity_fields := [], sync_weight := true,
    sync_weight_skip_zero := true }

/-- A variant with a (physically nonsensical but storable) negative weight. -/
def sample_product_negw : ProductProduct :=
  { id := 1, default_code := some "NEGW", weight := mkRat (-1) 2,
    insales_sync_config_id := sample_cfg_weight, insales_sync_skip_price := false,
    insales_sync_skip_qty := false, insales_sync_skip_weight := false }

/-- A variant with weight exactly zero. -/
def sample_product_zerow : ProductProduct :=
  { id := 2, default_code := some "ZEROW", weight := 0,
    insales_sync_config_id := sample_cfg_weight, insales_sync_skip_price := false,
    insales_sync_skip_qty := false, insales_sync_skip_weight := false }

/-- Precision records: 3 digits for weight, 2 for prices. -/
def sample_env : Env := { stock_weight_digits := 3, product_price_digits := 2 }

/-- C3, counterexample: for the variant with local weight `-1/2` (whose weight
floored at 0 is `0`, zero at precision 3) and remote weight `3`, with
skip-zero-weight enabled, the claim predicts no weight modifier; the code
emits one (`float_is_zero` is applied to the raw weight `-1/2`, which is not
zero at precision, so the skip-zero branch is not taken). -/
theorem c3_counterexample :
    float_is_zero (max sample_product_negw.weight 0)
        (precision_or_16 sample_env.stock_weight_digits) = true ∧
    some (3 : ℚ) ≠ some (float_repr (max sample_product_negw.weight 0)
        (precision_or_16 sample_env.stock_weight_digits)) ∧
    sample_product_negw.insales_sync_config_id.sync_weight = true ∧
    sample_product_negw.insales_sync_skip_weight = false ∧
    sample_product_negw.insales_sync_config_id.sync_weight_skip_zero = true ∧
    _get_insales_variant_weight_modifiers sample_env sample_product_negw
      (some 3) ≠ [] := by
  decide

/-- C3, amended: for every variant with weight sync enabled and the weight
skip-flag unset, whose local weight IS ITSELF (before flooring at 0) zero at
the configured precision, and whose floored formatted weight differs from the
remote weight: with the skip-zero policy enabled no weight modifier is
produced; with it disabled a single modifier with a null (clear) value is
produced. -/
theorem c3_amended_zero_weight (env : Env) (p : ProductProduct)
    (in_weight : Option ℚ)
    (hs : p.insales_sync_config_id.sync_weight = true)
    (hk : p.insales_sync_skip_weight = false)
    (hz : float_is_zero p.weight (precision_or_16 env.stock_weight_digits) = true)
    (hd : in_weight ≠ some (float_repr (max p.weight 0)
        (precision_or_16 env.stock_weight_digits))) :
    (p.insales_sync_config_id.sync_weight_skip_zero = true →
      _get_insales_variant_weight_modifiers env p in_weight = []) ∧
    (p.insales_sync_config_id.sync_weight_skip_zero = false →
      _get_insales_variant_weight_modifiers env p in_weight =
        [{ field_name := "weight"
           value := ModValue.null
           is_list := false
           diff_name := "weight"
           diff_old_value := truthyDec in_weight
           diff_new_value := ModValue.null }]) := by
  have hbeq : (in_weight == some (float_repr (max p.weight 0)
      (precision_or_16 env.stock_weight_digits))) = false :=
    beq_eq_false_iff_ne.mpr hd
  constructor <;> intro hsz <;>
    simp [_get_insales_variant_weight_modifiers, hs, hk, hbeq, hz, hsz]

/-- Splitting the quantity-field loop over an append of mapping lists. -/
theorem qty_mods_loop_append (sq : List StockQuant) (p : ProductProduct)
    (inv : InVariant) (l₁ l₂ : List QuantityField) :
    qty_mods_loop sq p inv (l₁ ++ l₂) =
      ((qty_mods_loop sq p inv l₁).1 ++ (qty_mods_loop sq p inv l₂).1,
       (qty_mods_loop sq p inv l₁).2 ++ (qty_mods_loop sq p inv l₂).2) := by
  induction l₁ with
  | nil => simp [qty_mods_loop]
  | cons f rest ih =>
    simp only [List.cons_append, qty_mods_loop]
    cases hg : get_quantity_from_insales_variant inv f with
    | error e => simp [ih]
    | ok n =>
      cases heq : (max n 0 == insales_sync_get_quantity sq p f.location) <;>
        simp [heq, ih]

/-- C5: a non-additional quantity mapping whose field name is absent from the
remote payload makes the extractor raise `UnknownInSalesVariantField` for that
mapping; the quantity generator logs the field and skips exactly that mapping,
every other mapping contributing its modifiers unchanged. -/
theorem c5_unknown_field_skipped (sq : List StockQuant) (p : ProductProduct)
    (inv : InVariant) (f : QuantityField) (fs₁ fs₂ : List QuantityField)
    (hadd : f.is_additional = false)
    (habs : inv.qty_fields.lookup f.insales_field = none)
    (hskip : p.insales_sync_skip_qty = false)
    (hcfg : p.insales_sync_config_id.quantity_fields = fs₁ ++ f :: fs₂) :
    get_quantity_from_insales_variant inv f = Except.error f.insales_field ∧
    (_get_insales_variant_qty_modifiers sq p inv).1 =
      (qty_mods_loop sq p inv fs₁).1 ++ (qty_mods_loop sq p inv fs₂).1 ∧
    f.insales_field ∈ (_get_insales_variant_qty_modifiers sq p inv).2 := by
  have hget : get_quantity_from_insales_variant inv f =
      Except.error f.insales_field := by
    simp [get_quantity_from_insales_variant, hadd, habs]
  have hloop : qty_mods_loop sq p inv (f :: fs₂) =
      ((qty_mods_loop sq p inv fs₂).1,
       f.insales_field :: (qty_mods_loop sq p inv fs₂).2) := by
    simp [qty_mods_loop, hget]
  refine ⟨hget, ?_, ?_⟩
  · simp only [_get_insales_variant_qty_modifiers, hskip, Bool.false_eq_true,
      ite_false, hcfg, qty_mods_loop_append, hloop]
  · simp only [_get_insales_variant_qty_modifiers, hskip, Bool.false_eq_true,
      ite_false, hcfg, qty_mods_loop_append, hloop]
    exact List.mem_append.mpr (Or.inr (List.mem_cons_self _ _))

/-- C6: for an additional-field quantity mapping the extractor never raises:
it returns the first matching field-value entry's value (a missing or falsy
payload value counting as 0), and 0 when no entry matches the mapping's
resolved numeric id. -/
theorem c6_additional_field_lookup (inv : InVariant) (f : QuantityField)
    (hadd : f.is_additional = true) :
    get_quantity_from_insales_variant inv f =
      Except.ok (match inv.variant_field_values.find?
          (fun e => some f.insales_field_id == e.variant_field_id) with
        | some e => e.value.getD 0
        | none => 0) ∧
    (inv.variant_field_values.find?
        (fun e => some f.insales_field_id == e.variant_field_id) = none →
      get_quantity_from_insales_variant inv f = Except.ok 0) := by
  constructor
  · simp only [get_quantity_from_insales_variant, hadd, ite_true]
    cases inv.variant_field_values.find?
        (fun e => some f.insales_field_id == e.variant_field_id) <;> rfl
  · intro h
    simp [get_quantity_from_insales_variant, hadd, h]

/-- C10: when the local on-hand-minus-reserved quantity at a mapped location
is negative, only the remote quantity is floored at 0 before comparison, so
the two can never be equal and the quantity generator emits a modifier whose
new value is exactly the (unfloored, negative) local quantity — for every
remote payload the mapping extracts from, i.e. on every reconciliation
pass. -/
theorem c10_negative_local_quantity (sq : List StockQuant) (p : ProductProduct)
    (inv : InVariant) (f : QuantityField) (fs₁ fs₂ : List QuantityField) (n : ℤ)
    (hskip : p.insales_sync_skip_qty = false)
    (hcfg : p.insales_sync_config_id.quantity_fields = fs₁ ++ f :: fs₂)
    (hneg : insales_sync_get_quantity sq p f.location < 0)
    (hok : get_quantity_from_insales_variant inv f = Except.ok n) :
    max n 0 ≠ insales_sync_get_quantity sq p f.location ∧
    qty_modifier f (max n 0) (insales_sync_get_quantity sq p f.location)
      ∈ (_get_insales_variant_qty_modifiers sq p inv).1 ∧
    (qty_modifier f (max n 0) (insales_sync_get_quantity sq p f.location)).diff_new_value
      = ModValue.int (insales_sync_get_quantity sq p f.location) := by
  have hne : max n 0 ≠ insales_sync_get_quantity sq p f.location := by
    intro hcontra
    have h0 : (0 : ℤ) ≤ max n 0 := le_max_right n 0
    rw [hcontra] at h0
    omega
  have hbeq : (max n 0 == insales_sync_get_quantity sq p f.location) = false :=
    beq_eq_false_iff_ne.mpr hne
  have hloop : qty_mods_loop sq p inv (f :: fs₂) =
      (qty_modifier f (max n 0) (insales_sync_get_quantity sq p f.location)
          :: (qty_mods_loop sq p inv fs₂).1,
       (qty_mods_loop sq p inv fs₂).2) := by
    simp [qty_mods_loop, hok, hbeq]
  refine ⟨hne, ?_, rfl⟩
  simp only [_get_insales_variant_qty_modifiers, hskip, Bool.false_eq_true,
    ite_false, hcfg, qty_mods_loop_append, hloop]
  exact List.mem_append.mpr (Or.inr (List.mem_cons_self _ _))

/-- Splitting the variant loop over an append of variant lists. -/
theorem process_insales_variants_append (env : Env) (sq : List StockQuant)
    (db : List ProductProduct) (now : ℕ) (client : ApiClient) (cfg : Config)
    (inp : InProduct) (l₁ l₂ : List InVariant) :
    process_insales_variants env sq db now client cfg inp (l₁ ++ l₂) =
      (process_insales_variants env sq db now client cfg inp l₁).bind
        (fun t₁ => (process_insales_variants env sq db now client cfg inp l₂).map
          (fun t₂ => t₁ ++ t₂)) := by
  induction l₁ with
  | nil =>
    cases h : process_insales_variants env sq db now client cfg inp l₂ <;>
      simp [process_insales_variants, h, Except.bind, Except.map, bind, pure,
        Except.pure]
  | cons v vs ih =>
    cases hs : process_insales_product_step env sq db now client cfg inp v with
    | error e =>
      simp [process_insales_variants, hs, Except.bind, Except.map, bind, pure,
        Except.pure]
    | ok t =>
      cases hv : process_insales_variants env sq db now client cfg inp vs <;>
        cases hl : process_insales_variants env sq db now client cfg inp l₂ <;>
          simp [process_insales_variants, hs, hv, hl, ih, Except.bind,
            Except.map, bind, pure, Except.pure, List.append_assoc]

/-- C7: in the variant loop of `process_insales_product`, a missing SKU, an
SKU matching no local variant, and an SKU matching more than one local variant
each raise their respective error (`VariantSkuNotFoundError`,
`ProductInSalesNotFoundError`, `MultipleProductError`), which is caught,
logged, and the loop continues: any variant whose step returns normally
leaves the surrounding product's processing of the other variants intact. -/
theorem c7_matching_errors_logged_and_skipped (env : Env) (sq : List StockQuant)
    (db : List ProductProduct) (now : ℕ) (client : ApiClient) (cfg : Config)
    (pid : Option ℤ) (plink : Option String) (v : InVariant)
    (vs₁ vs₂ : List InVariant) :
    (v.sku = none →
      process_insales_product_step env sq db now client cfg ⟨pid, plink, vs₁ ++ v :: vs₂⟩ v =
        Except.ok [Effect.logError (SyncErr.variantSkuNotFound v.product_id v.id)]) ∧
    (∀ s, v.sku = some s →
      db.filter (fun p => p.default_code == some s) = [] →
      process_insales_product_step env sq db now client cfg ⟨pid, plink, vs₁ ++ v :: vs₂⟩ v =
        Except.ok [Effect.logError (SyncErr.productInsalesNotFound s)]) ∧
    (∀ s p q rest, v.sku = some s →
      db.filter (fun r => r.default_code == some s) = p :: q :: rest →
      process_insales_product_step env sq db now client cfg ⟨pid, plink, vs₁ ++ v :: vs₂⟩ v =
        Except.ok [Effect.logError (SyncErr.multipleProduct s)]) ∧
    (∀ e, process_insales_product_step env sq db now client cfg ⟨pid, plink, vs₁ ++ v :: vs₂⟩ v =
        Except.ok e →
      process_insales_product env sq db now client cfg ⟨pid, plink, vs₁ ++ v :: vs₂⟩ =
        (process_insales_variants env sq db now client cfg ⟨pid, plink, vs₁ ++ v :: vs₂⟩ vs₁).bind
          (fun t₁ =>
            (process_insales_variants env sq db now client cfg ⟨pid, plink, vs₁ ++ v :: vs₂⟩ vs₂).map
              (fun t₂ => t₁ ++ (e ++ t₂)))) := by
  refine ⟨?_, ?_, ?_, ?_⟩
  · intro hsku
    simp [process_insales_product_step, hsku]
  · intro s hsku hf
    simp [process_insales_product_step, hsku, hf]
  · intro s p q rest hsku hf
    simp [process_insales_product_step, hsku, hf]
  · intro e hstep
    have hcons : process_insales_variants env sq db now client cfg
        ⟨pid, plink, vs₁ ++ v :: vs₂⟩ (v :: vs₂) =
        (process_insales_variants env sq db now client cfg
            ⟨pid, plink, vs₁ ++ v :: vs₂⟩ vs₂).map (fun ts => e ++ ts) := by
      cases hv : process_insales_variants env sq db now client cfg
          ⟨pid, plink, vs₁ ++ v :: vs₂⟩ vs₂ <;>
        simp [process_insales_variants, hstep, hv, Except.bind, Except.map,
          bind, pure, Except.pure]
    show process_insales_variants env sq db now client cfg
        ⟨pid, plink, vs₁ ++ v :: vs₂⟩ (vs₁ ++ v :: vs₂) = _
    rw [process_insales_variants_append, hcons]
    cases hv1 : process_insales_variants env sq db now client cfg
        ⟨pid, plink, vs₁ ++ v :: vs₂⟩ vs₁ <;>
      cases hv2 : process_insales_variants env sq db now client cfg
          ⟨pid, plink, vs₁ ++ v :: vs₂⟩ vs₂ <;>
        simp [Except.bind, Except.map, bind, pure, Except.pure]

/-- C9: an `ApiError` raised by `update_product_variant` (production
environment, at least one modifier, uniquely matched variant) is not caught by
the per-variant handler and propagates out of `process_insales_variant`,
`process_insales_product_step`, `process_insales_product`,
`sync_configuration` and `cron_do`, aborting the remaining variants, products
and configurations of the run. -/
theorem c9_api_error_propagates (env : Env) (sq : List StockQuant)
    (db : List ProductProduct) (now : ℕ) (apiFor : Config → ApiClient)
    (cfg : Config) (cfgs₂ : List Config) (pid : Option ℤ)
    (plink : Option String) (inv : InVariant) (vs₂ : List InVariant)
    (ps₂ : List InProduct) (p : ProductProduct) (sku : String)
    (ha : cfg.active = true)
    (hprod : cfg.prod_environment = true)
    (hfail : ∀ a b d, (apiFor cfg).update_product_variant a b d =
      Except.error ApiError.mk)
    (hprods : (apiFor cfg).products = ⟨pid, plink, inv :: vs₂⟩ :: ps₂)
    (hsku : inv.sku = some sku)
    (hfound : db.filter (fun r => r.default_code == some sku) = [p])
    (hmods : (variant_modifiers env sq
      { p with insales_sync_config_id := cfg } inv).1 ≠ []) :
    process_insales_variant env sq now (apiFor cfg)
      { p with insales_sync_config_id := cfg } inv = Except.error ApiError.mk ∧
    process_insales_product_step env sq db now (apiFor cfg) cfg
      ⟨pid, plink, inv :: vs₂⟩ inv = Except.error ApiError.mk ∧
    process_insales_product env sq db now (apiFor cfg) cfg
      ⟨pid, plink, inv :: vs₂⟩ = Except.error ApiError.mk ∧
    sync_configuration env sq db now (apiFor cfg) cfg = Except.error ApiError.mk ∧
    cron_do env sq db now apiFor (cfg :: cfgs₂) = Except.error ApiError.mk := by
  have hisEmpty : (variant_modifiers env sq
      { p with insales_sync_config_id := cfg } inv).1.isEmpty = false := by
    cases h : (variant_modifiers env sq
        { p with insales_sync_config_id := cfg } inv).1 with
    | nil => exact absurd h hmods
    | cons a l => rfl
  have hvariant : process_insales_variant env sq now (apiFor cfg)
      { p with insales_sync_config_id := cfg } inv = Except.error ApiError.mk := by
    rw [process_insales_variant_eq]
    simp only [hisEmpty, Bool.false_eq_true, ite_false, hprod, ite_true, hfail]
  have hstep : process_insales_product_step env sq db now (apiFor cfg) cfg
      ⟨pid, plink, inv :: vs₂⟩ inv = Except.error ApiError.mk := by
    simp [process_insales_product_step, hsku, hfound, hvariant, Except.bind,
      bind, pure, Except.pure]
  have hproduct : process_insales_product env sq db now (apiFor cfg) cfg
      ⟨pid, plink, inv :: vs₂⟩ = Except.error ApiError.mk := by
    show process_insales_variants env sq db now (apiFor cfg) cfg
        ⟨pid, plink, inv :: vs₂⟩ (inv :: vs₂) = Except.error ApiError.mk
    simp [process_insales_variants, hstep, Except.bind, bind, pure, Except.pure]
  have hsync : sync_configuration env sq db now (apiFor cfg) cfg =
      Except.error ApiError.mk := by
    simp only [sync_configuration, ha, Bool.not_true, Bool.false_eq_true,
      ite_false, hprods]
    simp [process_insales_products, hproduct, Except.bind, Except.map, bind,
      pure, Except.pure]
  refine ⟨hvariant, hstep, hproduct, hsync, ?_⟩
  simp only [cron_do, List.filter, ha]
  simp [cron_loop, hsync, Except.bind, bind, pure, Except.pure]

/-! ### C8: sync-flag propagation over the category mirror -/

theorem set_sync_desc_id (r d : Category) :
    (set_sync_descendants r d).id = d.id := by
  unfold set_sync_descendants
  split <;> rfl

theorem set_sync_desc_parent_path (r d : Category) :
    (set_sync_descendants r d).parent_path = d.parent_path := by
  unfold set_sync_descendants
  split <;> rfl

theorem set_sync_desc_self_path (r c : Category) :
    (set_sync_descendants r c).get_self_path = c.get_self_path := by
  unfold set_sync_descendants
  split <;> rfl

theorem is_descendant_set_sync_left (r r' d : Category) :
    Category.is_descendant (set_sync_descendants r d) r' =
      Category.is_descendant d r' := by
  unfold Category.is_descendant
  rw [set_sync_desc_parent_path]

theorem is_descendant_set_sync_right (r c d : Category) :
    Category.is_descendant d (set_sync_descendants r c) =
      Category.is_descendant d c := by
  unfold Category.is_descendant
  rw [set_sync_desc_self_path]

theorem set_sync_desc_of_sync (r d : Category) (h : d.sync = true) :
    set_sync_descendants r d = d := by
  unfold set_sync_descendants
  split
  · cases d
    simp only at h
    rw [h]
  · rfl

theorem set_sync_desc_sync_of_desc (r d : Category)
    (h : Category.is_descendant d r = true) :
    (set_sync_descendants r d).sync = true := by
  unfold set_sync_descendants
  rw [h]
  rfl

theorem set_sync_desc_self_sync (r : Category) (h : r.sync = true) :
    (set_sync_descendants r r).sync = true := by
  unfold set_sync_descendants
  split
  · rfl
  · exact h

theorem find?_map_set_sync (r : Category) (st : List Category) (i : ℤ) :
    (st.map (set_sync_descendants r)).find? (fun c => c.id == i) =
      (st.find? (fun c => c.id == i)).map (set_sync_descendants r) := by
  induction st with
  | nil => rfl
  | cons c cs ih =>
    cases hc : (c.id == i) with
    | true =>
      have h1 : ((set_sync_descendants r c).id == i) = true := by
        rw [set_sync_desc_id, hc]
      simp [List.find?, h1, hc]
    | false =>
      have h1 : ((set_sync_descendants r c).id == i) = false := by
        rw [set_sync_desc_id, hc]
      simp [List.find?, h1, hc, ih]

theorem propagate_of_find_none (st : List Category) (i : ℤ)
    (h : st.find? (fun c => c.id == i) = none) :
    propagate_sync_to_children st i = st := by
  unfold propagate_sync_to_children
  rw [h]

theorem propagate_of_find_unsynced (st : List Category) (i : ℤ) (r : Category)
    (h : st.find? (fun c => c.id == i) = some r) (hr : r.sync = false) :
    propagate_sync_to_children st i = st := by
  unfold propagate_sync_to_children
  rw [h]
  simp [hr]

theorem propagate_of_find_synced (st : List Category) (i : ℤ) (r : Category)
    (h : st.find? (fun c => c.id == i) = some r) (hr : r.sync = true) :
    propagate_sync_to_children st i = st.map (set_sync_descendants r) := by
  unfold propagate_sync_to_children
  rw [h]
  simp [hr]

/-- A root category with remote id 1 and an unsynced child mirroring it. -/
def sample_cat_root : Category :=
  { id := 1, insales_id := 1, title := "A", parent_path := "", sync := false }

/-- A child of `sample_cat_root` (materialized parent path `"1"`). -/
def sample_cat_child : Category :=
  { id := 2, insales_id := 2, title := "D", parent_path := "1", sync := false }

/-- C8, counterexample: start from two categories `A` (root, remote id 1) and
`D` (child of `A`, parent path `"1"`), both unsynced; write `sync = True` on
`A` (which propagates to `D`), then write `sync = False` on `D`.  After this
perfectly ordinary category write the state violates the claimed invariant:
`A.sync` is true while its path-prefix descendant `D` has `sync = false` —
the propagation only runs downward from the records being written, so a write
never restores the invariant for an unwritten ancestor. -/
theorem c8_counterexample :
    ∃ a ∈ category_write
        (category_write [sample_cat_root, sample_cat_child]
          1 { sync := some true, title := none })
        2 { sync := some false, title := none },
      ∃ d ∈ category_write
          (category_write [sample_cat_root, sample_cat_child]
            1 { sync := some true, title := none })
          2 { sync := some false, title := none },
        a.sync = true ∧ Category.is_descendant d a = true ∧ d.sync = false := by
  decide

/-- C8, amended: after any write to a category record (whatever fields the
values dict touches — the propagation is triggered by every write, not only
writes to the sync flag), if the written record's sync flag is true then every
descendant (matched by path prefix) has `sync = true`; and running the
propagation once more on the written record changes nothing (idempotence). -/
theorem c8_amended_descendants_synced (st : List Category) (i : ℤ)
    (vals : CatVals) :
    (∀ r, (category_write st i vals).find? (fun c => c.id == i) = some r →
      r.sync = true →
      ∀ d ∈ category_write st i vals, Category.is_descendant d r = true →
        d.sync = true) ∧
    propagate_sync_to_children (category_write st i vals) i =
      category_write st i vals := by
  unfold category_write
  cases hf : (cat_base_write st i vals).find? (fun c => c.id == i) with
  | none =>
    rw [propagate_of_find_none _ _ hf]
    constructor
    · intro r hr
      rw [hf] at hr
      cases hr
    · rw [propagate_of_find_none _ _ hf]
  | some r =>
    cases hr : r.sync with
    | false =>
      rw [propagate_of_find_unsynced _ _ r hf hr]
      constructor
      · intro r' hr' hsync
        rw [hf] at hr'
        cases hr'
        exact absurd hsync (by rw [hr]; exact Bool.false_ne_true)
      · rw [propagate_of_find_unsynced _ _ r hf hr]
    | true =>
      rw [propagate_of_find_synced _ _ r hf hr]
      have hf2 : ((cat_base_write st i vals).map
          (set_sync_descendants r)).find? (fun c => c.id == i) =
          some (set_sync_descendants r r) := by
        rw [find?_map_set_sync, hf, Option.map_some']
      constructor
      · intro r' hr' _ d hd hdesc
        rw [hf2] at hr'
        cases hr'
        rcases List.mem_map.mp hd with ⟨d₀, _, rfl⟩
        apply set_sync_desc_sync_of_desc
        rw [is_descendant_set_sync_right] at hdesc
        rw [← is_descendant_set_sync_left r r d₀]
        exact hdesc
      · rw [propagate_of_find_synced _ _ (set_sync_descendants r r) hf2
          (set_sync_desc_self_sync r hr)]
        rw [List.map_map]
        apply List.map_congr_left
        intro d _
        simp only [Function.comp_apply]
        rw [show set_sync_descendants (set_sync_descendants r r)
            (set_sync_descendants r d) =
            (if Category.is_descendant (set_sync_descendants r d)
                (set_sync_descendants r r) then
              { set_sync_descendants r d with sync := true }
            else set_sync_descendants r d) from rfl]
        rw [is_descendant_set_sync_right, is_descendant_set_sync_left]
        cases hdd : Category.is_descendant d r with
        | false =>
          simp only [Bool.false_eq_true, ite_false]
        | true =>
          simp only [ite_true]
          have hsync : (set_sync_descendants r d).sync = true :=
            set_sync_desc_sync_of_desc r d hdd
          cases hsd : set_sync_descendants r d
          rw [hsd] at hsync
          simp only at hsync
          rw [hsync]

/-! ### Concrete witnesses for the claim theorems -/

/-- A client that accepts every update. -/
def sample_client_ok : ApiClient :=
  { products := [], update_product_variant := fun _ _ _ => Except.ok () }

/-- A remote variant payload whose weight differs from the local one. -/
def sample_inv : InVariant :=
  { id := some 100, product_id := some 200, sku := some "NEGW",
    weight := some 3, price := none, old_price := none,
    variant_field_values := [], qty_fields := [] }

theorem c1_witness :
    ∃ tr, process_insales_variant sample_env [] 0 sample_client_ok
        sample_product_negw sample_inv = Except.ok tr ∧
      (∀ e ∈ tr, e.isApiUpdate = false) ∧
      ((variant_modifiers sample_env [] sample_product_negw sample_inv).1 ≠ [] →
        Effect.logDiff sample_product_negw.default_code
          (variant_modifiers sample_env [] sample_product_negw sample_inv).1 ∈ tr) :=
  c1_test_env_never_calls_update sample_env [] 0 sample_client_ok
    sample_product_negw sample_inv rfl

theorem c4_witness :
    ∃ tr, process_insales_variant sample_env [] 0 sample_client_ok
        sample_product_negw sample_inv = Except.ok tr ∧
      tr.filter Effect.isVariantWrite = [Effect.writeVariantLink (some 100) 0] ∧
      tr.getLast? = some (Effect.writeVariantLink (some 100) 0) :=
  ⟨_, rfl, c4_writeback_always sample_env [] 0 sample_client_ok
    sample_product_negw sample_inv _ rfl⟩

/-- Pricing collaborators: active price 200, old price 150 (old ≤ price). -/
def sample_pricelist : Pricelist := fun _ => 200

def sample_old_pricelist : Pricelist := fun _ => 150

def sample_cfg_price : Config :=
  { id := 2, active := true, prod_environment := false,
    pricelist_id := some sample_pricelist,
    old_pricelist_id := some sample_old_pricelist, quantity_fields := [],
    sync_weight := false, sync_weight_skip_zero := true }

def sample_product_price : ProductProduct :=
  { id := 3, default_code := some "PR", weight := 0,
    insales_sync_config_id := sample_cfg_price,
    insales_sync_skip_price := false, insales_sync_skip_qty := false,
    insales_sync_skip_weight := false }

theorem c2_witness :
    (sample_old_pricelist sample_product_price.id ≤
        max (sample_pricelist sample_product_price.id) 0 →
      effective_old_price (precision_or_16 sample_env.product_price_digits)
        (max (sample_pricelist sample_product_price.id) 0)
        (sample_old_pricelist sample_product_price.id) = none) ∧
    ((∃ m ∈ _get_insales_variant_price_modifiers sample_env sample_product_price
        (some 200) (some 150), m.field_name = "old-price") ↔
      some (150 : ℚ) ≠ effective_old_price
        (precision_or_16 sample_env.product_price_digits)
        (max (sample_pricelist sample_product_price.id) 0)
        (sample_old_pricelist sample_product_price.id)) ∧
    (∀ m ∈ _get_insales_variant_price_modifiers sample_env sample_product_price
        (some 200) (some 150),
      m.field_name = "old-price" →
        m.value = (match effective_old_price
            (precision_or_16 sample_env.product_price_digits)
            (max (sample_pricelist sample_product_price.id) 0)
            (sample_old_pricelist sample_product_price.id) with
          | some q => ModValue.dec q
          | none => ModValue.null)) :=
  c2_old_price_null_rule sample_env sample_product_price sample_pricelist
    sample_old_pricelist (some 200) (some 150) rfl rfl rfl

theorem c3_amended_witness :
    _get_insales_variant_weight_modifiers sample_env sample_product_zerow
      (some 3) = [] :=
  (c3_amended_zero_weight sample_env sample_product_zerow (some 3) rfl rfl
    (by decide) (by decide)).1 rfl

/-- A non-additional quantity mapping whose field is present remotely. -/
def sample_qf_qty : QuantityField :=
  { location := 7, is_additional := false, insales_field := "quantity",
    insales_field_id := 0 }

/-- A non-additional quantity mapping whose field the remote payload lacks. -/
def sample_qf_missing : QuantityField :=
  { location := 7, is_additional := false, insales_field := "missing-field",
    insales_field_id := 0 }

def sample_cfg_qty : Config :=
  { id := 3, active := true, prod_environment := false, pricelist_id := none,
    old_pricelist_id := none,
    quantity_fields := [sample_qf_qty, sample_qf_missing],
    sync_weight := false, sync_weight_skip_zero := true }

def sample_product_qty : ProductProduct :=
  { id := 4, default_code := some "Q", weight := 0,
    insales_sync_config_id := sample_cfg_qty,
    insales_sync_skip_price := false, insales_sync_skip_qty := false,
    insales_sync_skip_weight := false }

/-- A payload having only the `quantity` top-level key (value 7). -/
def sample_inv_qty : InVariant :=
  { id := some 101, product_id := some 201, sku := some "Q", weight := none,
    price := none, old_price := none, variant_field_values := [],
    qty_fields := [("quantity", some 7)] }

theorem c5_witness :
    get_quantity_from_insales_variant sample_inv_qty sample_qf_missing =
      Except.error sample_qf_missing.insales_field ∧
    (_get_insales_variant_qty_modifiers [] sample_product_qty sample_inv_qty).1 =
      (qty_mods_loop [] sample_product_qty sample_inv_qty [sample_qf_qty]).1
        ++ (qty_mods_loop [] sample_product_qty sample_inv_qty []).1 ∧
    sample_qf_missing.insales_field ∈
      (_get_insales_variant_qty_modifiers [] sample_product_qty sample_inv_qty).2 :=
  c5_unknown_field_skipped [] sample_product_qty sample_inv_qty
    sample_qf_missing [sample_qf_qty] [] rfl rfl rfl rfl

/-- The additional-field mapping of the claim's scenario (resolved id 42). -/
def sample_qf_add : QuantityField :=
  { location := 7, is_additional := true, insales_field := "custom_stock",
    insales_field_id := 42 }

/-- The remote payload of the scenario: `{variant-field-id: 42, value: "5"}`. -/
def sample_inv_add : InVariant :=
  { id := some 102, product_id := some 202, sku := some "A", weight := none,
    price := none, old_price := none,
    variant_field_values := [{ variant_field_id := some 42, value := some 5 }],
    qty_fields := [] }

theorem c6_witness :
    get_quantity_from_insales_variant sample_inv_add sample_qf_add =
      Except.ok (match sample_inv_add.variant_field_values.find?
          (fun e => some sample_qf_add.insales_field_id == e.variant_field_id) with
        | some e => e.value.getD 0
        | none => 0) ∧
    (sample_inv_add.variant_field_values.find?
        (fun e => some sample_qf_add.insales_field_id == e.variant_field_id) = none →
      get_quantity_from_insales_variant sample_inv_add sample_qf_add =
        Except.ok 0) :=
  c6_additional_field_lookup sample_inv_add sample_qf_add rfl

/-- Two local variants sharing the external code `"SKU1"`. -/
def sample_product_dup1 : ProductProduct :=
  { id := 11, default_code := some "SKU1", weight := 0,
    insales_sync_config_id := sample_cfg_weight,
    insales_sync_skip_price := false, insales_sync_skip_qty := false,
    insales_sync_skip_weight := false }

def sample_product_dup2 : ProductProduct :=
  { id := 12, default_code := some "SKU1", weight := 0,
    insales_sync_config_id := sample_cfg_weight,
    insales_sync_skip_price := false, insales_sync_skip_qty := false,
    insales_sync_skip_weight := false }

/-- A remote variant with the ambiguous SKU. -/
def sample_inv_sku1 : InVariant :=
  { id := some 103, product_id := some 203, sku := some "SKU1", weight := none,
    price := none, old_price := none, variant_field_values := [],
    qty_fields := [] }

theorem c7_witness :
    process_insales_product_step sample_env []
        [sample_product_dup1, sample_product_dup2] 0 sample_client_ok
        sample_cfg_weight ⟨some 1, none, [] ++ sample_inv_sku1 :: []⟩
        sample_inv_sku1 =
      Except.ok [Effect.logError (SyncErr.multipleProduct "SKU1")] ∧
    process_insales_product sample_env []
        [sample_product_dup1, sample_product_dup2] 0 sample_client_ok
        sample_cfg_weight ⟨some 1, none, [] ++ sample_inv_sku1 :: []⟩ =
      (process_insales_variants sample_env []
          [sample_product_dup1, sample_product_dup2] 0 sample_client_ok
          sample_cfg_weight ⟨some 1, none, [] ++ sample_inv_sku1 :: []⟩ []).bind
        (fun t₁ =>
          (process_insales_variants sample_env []
              [sample_product_dup1, sample_product_dup2] 0 sample_client_ok
              sample_cfg_weight ⟨some 1, none, [] ++ sample_inv_sku1 :: []⟩ []).map
            (fun t₂ => t₁ ++
              ([Effect.logError (SyncErr.multipleProduct "SKU1")] ++ t₂))) := by
  have h := c7_matching_errors_logged_and_skipped sample_env []
    [sample_product_dup1, sample_product_dup2] 0 sample_client_ok
    sample_cfg_weight (some 1) none sample_inv_sku1 [] []
  have hstep := h.2.2.1 "SKU1" sample_product_dup1 sample_product_dup2 [] rfl rfl
  exact ⟨hstep, h.2.2.2 _ hstep⟩

theorem c8_amended_witness :
    (∀ d ∈ category_write [sample_cat_root, sample_cat_child] 1
        { sync := some true, title := none },
      Category.is_descendant d { sample_cat_root with sync := true } = true →
        d.sync = true) ∧
    propagate_sync_to_children
        (category_write [sample_cat_root, sample_cat_child] 1
          { sync := some true, title := none }) 1 =
      category_write [sample_cat_root, sample_cat_child] 1
        { sync := some true, title := none } := by
  have h := c8_amended_descendants_synced [sample_cat_root, sample_cat_child] 1
    { sync := some true, title := none }
  exact ⟨h.1 { sample_cat_root with sync := true } (by decide) rfl, h.2⟩

/-- The production configuration of the API-failure scenario. -/
def sample_cfg_prod : Config :=
  { id := 9, active := true, prod_environment := true, pricelist_id := none,
    old_pricelist_id := none, quantity_fields := [], sync_weight := true,
    sync_weight_skip_zero := true }

def sample_product_c9 : ProductProduct :=
  { id := 9, default_code := some "C9", weight := 2,
    insales_sync_config_id := sample_cfg_weight,
    insales_sync_skip_price := false, insales_sync_skip_qty := false,
    insales_sync_skip_weight := false }

def sample_inv_c9 : InVariant :=
  { id := some 500, product_id := some 600, sku := some "C9",
    weight := some 3, price := none, old_price := none,
    variant_field_values := [], qty_fields := [] }

/-- A client whose `update_product_variant` always raises `ApiError`. -/
def sample_client_fail : ApiClient :=
  { products := [⟨some 600, some "perm", [sample_inv_c9]⟩],
    update_product_variant := fun _ _ _ => Except.error ApiError.mk }

def sample_apiFor : Config → ApiClient := fun _ => sample_client_fail

theorem c9_witness :
    process_insales_variant sample_env [] 0 (sample_apiFor sample_cfg_prod)
      { sample_product_c9 with insales_sync_config_id := sample_cfg_prod }
      sample_inv_c9 = Except.error ApiError.mk ∧
    process_insales_product_step sample_env [] [sample_product_c9] 0
      (sample_apiFor sample_cfg_prod) sample_cfg_prod
      ⟨some 600, some "perm", [sample_inv_c9]⟩ sample_inv_c9 =
        Except.error ApiError.mk ∧
    process_insales_product sample_env [] [sample_product_c9] 0
      (sample_apiFor sample_cfg_prod) sample_cfg_prod
      ⟨some 600, some "perm", [sample_inv_c9]⟩ = Except.error ApiError.mk ∧
    sync_configuration sample_env [] [sample_product_c9] 0
      (sample_apiFor sample_cfg_prod) sample_cfg_prod =
        Except.error ApiError.mk ∧
    cron_do sample_env [] [sample_product_c9] 0 sample_apiFor
      [sample_cfg_prod] = Except.error ApiError.mk := by
  have h := c9_api_error_propagates sample_env [] [sample_product_c9] 0
    sample_apiFor sample_cfg_prod [] (some 600) (some "perm") sample_inv_c9
    [] [] sample_product_c9 "C9" rfl rfl (fun _ _ _ => rfl) rfl rfl rfl
    (by decide)
  exact h

theorem c10_witness :
    max (7 : ℤ) 0 ≠ insales_sync_get_quantity [⟨4, 7, 2, 5⟩]
      sample_product_qty sample_qf_qty.location ∧
    qty_modifier sample_qf_qty (max 7 0)
        (insales_sync_get_quantity [⟨4, 7, 2, 5⟩] sample_product_qty
          sample_qf_qty.location)
      ∈ (_get_insales_variant_qty_modifiers [⟨4, 7, 2, 5⟩] sample_product_qty
          sample_inv_qty).1 ∧
    (qty_modifier sample_qf_qty (max 7 0)
        (insales_sync_get_quantity [⟨4, 7, 2, 5⟩] sample_product_qty
          sample_qf_qty.location)).diff_new_value
      = ModValue.int (insales_sync_get_quantity [⟨4, 7, 2, 5⟩]
          sample_product_qty sample_qf_qty.location) :=
  c10_negative_local_quantity [⟨4, 7, 2, 5⟩] sample_product_qty sample_inv_qty
    sample_qf_qty [] [sample_qf_missing] 7 rfl rfl (by decide) rfl

end Insales
